import Mathlib

/-!
Verification of the training loop of `src/train.py` (`train()`).

The file shallowly embeds the per-batch step-pair of the training loop
(lines 66-144 of `src/train.py`): the sequence of operations executed for
one batch, the accumulation and clearing of parameter gradients, the
mixed-precision gradient scaler, the zip of the two dataloaders, the
checkpoint/preview trigger counter, and the (absent) error handling around
the artifact writes.

Tensors and the autograd engine are modelled at the granularity the claims
need: a parameter set is a single rational number standing for the model's
parameters, its accumulated gradient is a rational number, and each
`backward()` call adds the batch-dependent gradient contribution to every
parameter set that is reachable in the computation graph of the loss being
backpropagated.  Which parameter sets are reachable is read off the source:

* `errD` (line 90) is built from `netD(cartoon_data)`, `netD(edge_data)` and
  `netD(generated_data)` (lines 85-87) where
  `generated_data = netG(real_data)` (line 82) is NOT detached, so
  `scaler.scale(errD).backward(retain_graph=True)` (line 93) accumulates
  into both `netD`'s and `netG`'s gradients.
* `errG` (line 112) is built from `netD(generated_data)` (line 109) with
  `netD` not frozen and `generated_data` reaching back into `netG`, so
  `scaler.scale(errG).backward()` (line 115) accumulates into both
  `netD`'s and `netG`'s gradients as well.

The per-batch numeric values of those four contributions depend on the data
and the weights, so they are free parameters of the model (`BatchGrads`).
-/

namespace Toonify

/-- Input fed to a Discriminator forward pass `netD(...)`: the cartoon half
of the paired batch (line 76), the edge half (line 77), or a tensor produced
by a Generator forward pass, identified by its allocation id. -/
inductive DInput where
  | cartoonData
  | edgeData
  | tensor (id : Nat)
deriving DecidableEq

/-- One observable operation of the per-batch step-pair of `train()`.
`genForward outId` is `netG(real_data)` allocating the tensor `outId`;
`dForward inp` is `netD(inp)`; `backwardD retained` is
`scaler.scale(errD).backward(retain_graph=retained)`; `stepD`/`stepG` are
`scaler.step(optimizerD)`/`scaler.step(optimizerG)`; `scalerUpdate` is
`scaler.update()`. -/
inductive Event where
  | zeroGradD
  | genForward (outId : Nat)
  | dForward (inp : DInput)
  | backwardD (retained : Bool)
  | zeroGradG
  | backwardG
  | stepD
  | stepG
  | scalerUpdate
deriving DecidableEq

/-- Modelled from the spec: the `torch.cuda.amp.GradScaler` constructed at
`src/train.py` line 35.  Its implementation is library code absent from
`src/`; spec section 4.2 gives its contract: a single scale factor
(initialized to 65536), `scale` multiplies the loss by the factor,
`step` unscales the gradients, skips the parameter update and records an
overflow when a non-finite gradient is found, and `update` shrinks the
factor immediately after an overflow and grows it after a run of
successful steps. -/
structure GradScaler where
  scale : ℚ
  foundInf : Bool
  goodSteps : Nat
  growthInterval : Nat
deriving DecidableEq

/-- The state the scaler sees of one optimizer: the parameter set it
updates (one rational standing for all parameters), the accumulated
(scaled) gradient, and whether that gradient is finite. -/
structure OptState where
  param : ℚ
  grad : ℚ
  gradFinite : Bool
deriving DecidableEq

/-- Modelled from the spec: `scale(loss)` multiplies the loss by the
current factor before backpropagation (spec section 4.2). -/
def GradScaler.scaleLoss (s : GradScaler) (loss : ℚ) : ℚ :=
  s.scale * loss

/-- Modelled from the spec: `step(optimizer)` unscales the gradients and
checks for non-finite values; if found, the parameter update is skipped
and the overflow recorded; otherwise the optimizer's gradient-dependent
update is applied (the library AdamW rule is abstracted to an update by
the unscaled gradient).  Returns normally in both cases: the overflow is
recorded in the scaler state, never raised. -/
def GradScaler.stepOpt (s : GradScaler) (o : OptState) : GradScaler × OptState :=
  if o.gradFinite then
    (s, { o with param := o.param - o.grad / s.scale })
  else
    ({ s with foundInf := true }, o)

/-- Modelled from the spec: `update()` halves the scale factor right after
an overflow, and doubles it after `growthInterval` consecutive successful
steps (spec section 4.2; the torch defaults are backoff 0.5, growth 2.0). -/
def GradScaler.update (s : GradScaler) : GradScaler :=
  if s.foundInf then
    { s with scale := s.scale / 2, foundInf := false, goodSteps := 0 }
  else if s.growthInterval ≤ s.goodSteps + 1 then
    { s with scale := s.scale * 2, goodSteps := 0 }
  else
    { s with goodSteps := s.goodSteps + 1 }

/-- The per-batch gradient contributions of the two backward passes of
`src/train.py`, free parameters determined by the data and the weights.
`dD`/`dG` are what `scaler.scale(errD).backward(retain_graph=True)`
(line 93) adds to `netD`'s resp. `netG`'s accumulated gradients — the
`netG` share is present because `generated_data = netG(real_data)`
(line 82) is fed to `netD` at line 87 without `.detach()`.  `gD`/`gG` are
what `scaler.scale(errG).backward()` (line 115) adds to `netD`'s resp.
`netG`'s gradients — the `netD` share is present because `netD` is not
frozen for the forward pass at line 109.  `dFinite`/`gFinite` say whether
the gradients are finite when `scaler.step` runs at line 97 resp. 120. -/
structure BatchGrads where
  dD : ℚ
  dG : ℚ
  gD : ℚ
  gG : ℚ
  dFinite : Bool
  gFinite : Bool
deriving DecidableEq

/-- State threaded through the training loop: the two parameter sets, their
accumulated gradients, the single scaler of line 35, and the allocator
counter giving each tensor produced by `netG` its identity. -/
structure TrainState where
  dParam : ℚ
  gParam : ℚ
  dGrad : ℚ
  gGrad : ℚ
  scaler : GradScaler
  nextId : Nat
deriving DecidableEq

/-- `netD.zero_grad()` — line 73. -/
def opZeroGradD (st : TrainState) : TrainState :=
  { st with dGrad := 0 }

/-- `generated_data = netG(real_data)` — line 82: one Generator forward
pass allocating a fresh tensor, whose id is returned. -/
def opGenForward (st : TrainState) : TrainState × Nat :=
  ({ st with nextId := st.nextId + 1 }, st.nextId)

/-- `scaler.scale(errD).backward(retain_graph=True)` — line 93: accumulates
into `netD`'s gradients and, `generated_data` being attached, into
`netG`'s gradients as well. -/
def opBackwardD (b : BatchGrads) (st : TrainState) : TrainState :=
  { st with dGrad := st.dGrad + b.dD, gGrad := st.gGrad + b.dG }

/-- `scaler.step(optimizerD)` — line 97. -/
def opStepD (b : BatchGrads) (st : TrainState) : TrainState :=
  let r := st.scaler.stepOpt { param := st.dParam, grad := st.dGrad, gradFinite := b.dFinite }
  { st with scaler := r.1, dParam := r.2.param }

/-- `netG.zero_grad()` — line 105. -/
def opZeroGradG (st : TrainState) : TrainState :=
  { st with gGrad := 0 }

/-- `scaler.scale(errG).backward()` — line 115: accumulates into `netG`'s
gradients and, `netD` being unfrozen in the forward pass of line 109, into
`netD`'s gradients as well. -/
def opBackwardG (b : BatchGrads) (st : TrainState) : TrainState :=
  { st with dGrad := st.dGrad + b.gD, gGrad := st.gGrad + b.gG }

/-- `scaler.step(optimizerG)` — line 120. -/
def opStepG (b : BatchGrads) (st : TrainState) : TrainState :=
  let r := st.scaler.stepOpt { param := st.gParam, grad := st.gGrad, gradFinite := b.gFinite }
  { st with scaler := r.1, gParam := r.2.param }

/-- `scaler.update()` — line 122. -/
def opScalerUpdate (st : TrainState) : TrainState :=
  { st with scaler := st.scaler.update }

/-- One step-pair of the training loop, `src/train.py` lines 73-122,
operation by operation in source order, together with the trace of
observable operations it executes. -/
def trainStep (b : BatchGrads) (st : TrainState) : TrainState × List Event :=
  -- (1) Update D network, lines 73-97
  let st1 := opZeroGradD st                -- netD.zero_grad()                line 73
  let g := opGenForward st1                -- generated_data = netG(real_data) line 82
  let st2 := g.1
  let gid := g.2
  let fwd := [Event.dForward DInput.cartoonData,       -- netD(cartoon_data)   line 85
              Event.dForward DInput.edgeData,          -- netD(edge_data)      line 86
              Event.dForward (DInput.tensor gid)]      -- netD(generated_data) line 87
  let st3 := opBackwardD b st2             -- errD backward, graph retained   line 93
  let st4 := opStepD b st3                 -- scaler.step(optimizerD)         line 97
  -- (2) Update G network, lines 105-122
  let st5 := opZeroGradG st4               -- netG.zero_grad()                line 105
  let st6 := opBackwardG b st5             -- errG backward (after the second
                                           -- netD(generated_data), line 109) line 115
  let st7 := opStepG b st6                 -- scaler.step(optimizerG)         line 120
  let st8 := opScalerUpdate st7            -- scaler.update()                 line 122
  (st8,
   Event.zeroGradD :: Event.genForward gid :: fwd ++
     [Event.backwardD true, Event.stepD, Event.zeroGradG,
      Event.dForward (DInput.tensor gid), Event.backwardG, Event.stepG,
      Event.scalerUpdate])

/-- The state after one step-pair. -/
def trainStepState (b : BatchGrads) (st : TrainState) : TrainState :=
  (trainStep b st).1

/-- True of the event recording a Generator forward pass. -/
def Event.isGenForward : Event → Bool
  | .genForward _ => true
  | _ => false

/-- True of the event recording a Discriminator forward pass whose input is
a Generator-produced tensor. -/
def Event.isDForwardOnGenerated : Event → Bool
  | .dForward (.tensor _) => true
  | _ => false

/-- C1: every batch executes the fixed phase order — clear Discriminator
gradients, Generator forward, the three Discriminator forwards,
Discriminator backward with the graph retained, Discriminator optimizer
step, clear Generator gradients, second Discriminator forward, Generator
backward, Generator optimizer step, scaler sync.  In particular the
Discriminator update (`stepD`) strictly precedes the Generator update
(`stepG`), `zeroGradD` precedes the Discriminator backward and `zeroGradG`
precedes the Generator backward. -/
theorem c1_step_phase_order (b : BatchGrads) (st : TrainState) :
    (trainStep b st).2 =
      [Event.zeroGradD, Event.genForward st.nextId,
       Event.dForward DInput.cartoonData, Event.dForward DInput.edgeData,
       Event.dForward (DInput.tensor st.nextId),
       Event.backwardD true, Event.stepD, Event.zeroGradG,
       Event.dForward (DInput.tensor st.nextId), Event.backwardG,
       Event.stepG, Event.scalerUpdate] := by
  rfl

/-- C2 counterexample: with a batch whose Discriminator backward carries a
nonzero contribution into the Generator (possible because line 87 feeds
`generated_data` to `netD` without `.detach()`), the Generator's
accumulated gradient right after `scaler.scale(errD).backward(...)` differs
from its value right before: it is not unchanged, refuting the claim. -/
theorem c2_counterexample :
    ¬ ((opBackwardD ⟨0, 1, 0, 0, true, true⟩
          (opZeroGradD ⟨0, 0, 0, 0, ⟨65536, false, 0, 2000⟩, 0⟩)).gGrad =
        (opZeroGradD ⟨0, 0, 0, 0, ⟨65536, false, 0, 2000⟩, 0⟩).gGrad) := by
  simp [opBackwardD, opZeroGradD]

/-- C2 (amended): the Discriminator's backward pass does flow gradient into
the Generator (`generated_data` is not detached at line 87), but
`netG.zero_grad()` (line 105) clears the Generator's gradients before the
Generator's own backward pass, so the leak never reaches a Generator
parameter update: the Generator's gradient entering its backward pass is 0,
and the Generator parameter after the full step-pair is independent of the
leaked contribution `dG`. -/
theorem c2_leak_cleared_before_g_update (b : BatchGrads) (st : TrainState) (x : ℚ) :
    (opZeroGradG (opStepD b (opBackwardD b (opZeroGradD st)))).gGrad = 0 ∧
    (trainStepState { b with dG := x } st).gParam = (trainStepState b st).gParam := by
  exact ⟨rfl, rfl⟩

/-- C3: every step-pair runs exactly one Generator forward pass (line 82),
and both Discriminator forward passes on generated data — the one of the
Discriminator update (line 87) and the one of the Generator update
(line 109) — consume the very tensor that single pass produced, not a
regenerated one. -/
theorem c3_generated_once_and_shared (b : BatchGrads) (st : TrainState) :
    ((trainStep b st).2.filter Event.isGenForward) = [Event.genForward st.nextId] ∧
    ((trainStep b st).2.filter Event.isDForwardOnGenerated) =
      [Event.dForward (DInput.tensor st.nextId),
       Event.dForward (DInput.tensor st.nextId)] := by
  exact ⟨rfl, rfl⟩

/-- C4: `scaler.update()` occurs exactly once per step-pair, the trace ends
with Discriminator step, then Generator step, then that single update, and
the final scaler state is the one scaler of line 35 threaded through the
Discriminator step (line 97) and the Generator step (line 120) and then
updated once (line 122) — a single shared scale factor for both models. -/
theorem c4_single_scaler_single_update (b : BatchGrads) (st : TrainState) :
    (trainStep b st).2.count Event.scalerUpdate = 1 ∧
    (∃ l1 l2, (trainStep b st).2 =
        l1 ++ Event.stepD :: l2 ++ [Event.stepG, Event.scalerUpdate]) ∧
    (trainStepState b st).scaler =
      ((st.scaler.stepOpt ⟨st.dParam, 0 + b.dD, b.dFinite⟩).1.stepOpt
        ⟨st.gParam, 0 + b.gG, b.gFinite⟩).1.update := by
  refine ⟨rfl, ⟨[Event.zeroGradD, Event.genForward st.nextId,
    Event.dForward DInput.cartoonData, Event.dForward DInput.edgeData,
    Event.dForward (DInput.tensor st.nextId), Event.backwardD true],
    [Event.zeroGradG, Event.dForward (DInput.tensor st.nextId),
     Event.backwardG], rfl⟩, rfl⟩

/-- C5 counterexample: with a batch whose Generator backward carries a
nonzero contribution into the Discriminator (possible because `netD` is not
frozen for the forward pass of line 109), the Discriminator's accumulated
gradient right after `scaler.scale(errG).backward()` differs from its value
right before: it is not unchanged, refuting the claim. -/
theorem c5_counterexample :
    ¬ ((opBackwardG ⟨0, 0, 1, 0, true, true⟩
          (opZeroGradG ⟨0, 0, 0, 0, ⟨65536, false, 0, 2000⟩, 0⟩)).dGrad =
        (opZeroGradG ⟨0, 0, 0, 0, ⟨65536, false, 0, 2000⟩, 0⟩).dGrad) := by
  simp [opBackwardG, opZeroGradG]

/-- C5 (amended): the Generator's backward pass does add gradient to the
Discriminator's parameters' gradients (`netD` is not frozen at line 109),
but it leaves the Discriminator's parameters themselves unchanged — the
Discriminator's optimizer step (line 97) already happened — and the stale
gradient is cleared by `netD.zero_grad()` (line 73) at the start of the
next iteration, so the Discriminator's parameters after this step-pair and
after the following one are independent of the leaked contribution `gD`. -/
theorem c5_d_params_unaffected (b bn : BatchGrads) (st : TrainState) (x : ℚ) :
    (opBackwardG b (opZeroGradG (opStepD b (opBackwardD b (opZeroGradD st))))).dParam =
      (opStepD b (opBackwardD b (opZeroGradD st))).dParam ∧
    (trainStepState { b with gD := x } st).dParam = (trainStepState b st).dParam ∧
    (trainStepState bn (trainStepState { b with gD := x } st)).dParam =
      (trainStepState bn (trainStepState b st)).dParam := by
  obtain ⟨dD, dG, gD, gG, df, gf⟩ := b
  obtain ⟨dDn, dGn, gDn, gGn, dfn, gfn⟩ := bn
  cases df <;> cases gf <;> cases dfn <;> cases gfn <;> exact ⟨rfl, rfl, rfl⟩

/-- C10: the gradient the Generator's optimizer step consumes is exactly
the contribution of the Generator-loss backward pass (line 115): whatever
leaked into the Generator during the Discriminator's backward (line 93) is
zeroed by `netG.zero_grad()` (line 105) before it can influence the
Generator parameter update, so at `scaler.step(optimizerG)` (line 120) the
Generator's accumulated gradient is `gG` alone. -/
theorem c10_g_step_uses_only_g_loss_gradient (b : BatchGrads) (st : TrainState) :
    (opBackwardG b (opZeroGradG (opStepD b (opBackwardD b (opZeroGradD st))))).gGrad =
      b.gG := by
  exact zero_add b.gG

/-- C6: when the gradients are non-finite at `scaler.step(optimizer)`, the
optimizer's parameters are left unchanged (the update is skipped), the
overflow is recorded in the scaler state rather than raised — both
`stepOpt` and `update` are total functions returning a new state, so no
exception can reach the caller — and the following `scaler.update()`
strictly decreases the scale factor. -/
theorem c6_overflow_skips_update_and_shrinks_scale (s : GradScaler) (o : OptState)
    (hnf : o.gradFinite = false) (hpos : 0 < s.scale) :
    (s.stepOpt o).2.param = o.param ∧
    (s.stepOpt o).1.foundInf = true ∧
    (s.stepOpt o).1.update.scale < s.scale := by
  refine ⟨by simp [GradScaler.stepOpt, hnf], by simp [GradScaler.stepOpt, hnf], ?_⟩
  simp [GradScaler.stepOpt, hnf, GradScaler.update]
  exact hpos

/-- C6 witness: a scaler at the initial factor 65536 stepping an optimizer
whose gradient is flagged non-finite. -/
theorem c6_witness :
    ((⟨1, 3, false⟩ : OptState).gradFinite = false ∧
      (0 : ℚ) < (⟨65536, false, 0, 2000⟩ : GradScaler).scale) ∧
    ((⟨65536, false, 0, 2000⟩ : GradScaler).stepOpt ⟨1, 3, false⟩).2.param = 1 ∧
    ((⟨65536, false, 0, 2000⟩ : GradScaler).stepOpt ⟨1, 3, false⟩).1.foundInf = true ∧
    ((⟨65536, false, 0, 2000⟩ : GradScaler).stepOpt ⟨1, 3, false⟩).1.update.scale <
      (⟨65536, false, 0, 2000⟩ : GradScaler).scale :=
  ⟨⟨rfl, by norm_num⟩,
    c6_overflow_skips_update_and_shrinks_scale ⟨65536, false, 0, 2000⟩ ⟨1, 3, false⟩
      rfl (by norm_num)⟩

/-- The batches one epoch iterates over: `src/train.py` line 66 zips the
cartoon dataloader with the real-photo dataloader, so the epoch runs one
step-pair per zipped pair and stops when the shorter source is exhausted —
`List.zip` is total, so exhaustion ends the epoch without an error. -/
def epochPairs {α β : Type} (cartoonLoader : List α) (realLoader : List β) :
    List (α × β) :=
  List.zip cartoonLoader realLoader

/-- C7: one epoch executes exactly `min m n` step-pairs for sources of
lengths `m` and `n`; in particular sources of lengths 5 and 3 yield exactly
3 step-pairs. -/
theorem c7_epoch_runs_min_steps :
    (∀ (α β : Type) (c : List α) (r : List β),
        (epochPairs c r).length = min c.length r.length) ∧
    (epochPairs [10, 20, 30, 40, 50] [1, 2, 3]).length = 3 := by
  refine ⟨fun α β c r => ?_, rfl⟩
  simp [epochPairs]

/-- The checkpoint-event count of the loop's trigger convention,
`src/train.py` lines 140-144: the monotonic global counter `iters` starts
at 0, the trigger `iters % interval == 0` is tested before the counter is
incremented, so over `steps` iterations the counter takes the values
`0, 1, ..., steps - 1`. -/
def checkpointEvents (interval steps : Nat) : Nat :=
  ((List.range steps).filter (fun iters => iters % interval == 0)).length

/-- C8 counterexample: with interval 2 and 5 steps the loop's convention
fires at counter values 0, 2 and 4 — three events, not two. -/
theorem c8_counterexample : ¬ (checkpointEvents 2 5 = 2) := by
  decide

/-- C8 (amended): with a checkpoint interval of 2, running 5 training steps
produces exactly 3 checkpoint events, at counter values 0, 2 and 4 (the
modulus is tested before the increment and counter value 0 triggers). -/
theorem c8_three_checkpoint_events :
    checkpointEvents 2 5 = 3 ∧
    (List.range 5).filter (fun iters => iters % 2 == 0) = [0, 2, 4] := by
  decide

/-- Failure of one of the artifact writes of the loop body. -/
inductive WriteError where
  | previewFailed
  | checkpointFailed
deriving DecidableEq

/-- The artifact-writing tail of the loop body, `src/train.py`
lines 135-144: every 200 iterations a preview image is written (lines
135-138), every 1000 iterations the two checkpoints are saved (lines
140-142), and `iters` is incremented (line 144).  The writes are bare
calls — no `try`/`except` anywhere in `train()` — so a failing write
raises an exception that propagates out of both `for` loops; the model
returns the propagated error, otherwise the count of completed steps.
`previewOk i` / `saveOk i` say whether the write at counter value `i`
succeeds. -/
def runSteps (previewOk saveOk : Nat → Bool) : Nat → Nat → Except WriteError Nat
  | iters, 0 => Except.ok iters
  | iters, n + 1 =>
    if iters % 200 == 0 && !previewOk iters then
      Except.error WriteError.previewFailed
    else if iters % 1000 == 0 && !saveOk iters then
      Except.error WriteError.checkpointFailed
    else
      runSteps previewOk saveOk (iters + 1) n

/-- C9 counterexample: a run of 5 steps whose preview write at counter
value 0 fails does not complete its steps — the exception propagates and
the run aborts instead of continuing. -/
theorem c9_counterexample :
    ¬ (runSteps (fun _ => false) (fun _ => true) 0 5 = Except.ok 5) := by
  intro h
  exact Except.noConfusion h

/-- C9 (amended): an I/O failure of a preview or checkpoint write aborts
the training run: the exception propagates uncaught and no further step
executes — the loop result is the error, not a completed step count. -/
theorem c9_write_failure_aborts_run (p s : Nat → Bool) (iters n : Nat) :
    (iters % 200 = 0 → p iters = false →
      runSteps p s iters (n + 1) = Except.error WriteError.previewFailed) ∧
    (iters % 200 = 0 → p iters = true → iters % 1000 = 0 → s iters = false →
      runSteps p s iters (n + 1) = Except.error WriteError.checkpointFailed) := by
  constructor
  · intro h1 h2
    simp [runSteps, h1, h2]
  · intro h1 h2 h3 h4
    simp [runSteps, h1, h2, h3, h4]

/-- C9 witness: at counter value 0 both triggers fire; a failing preview
write aborts the run, and with the preview write succeeding a failing
checkpoint write aborts the run. -/
theorem c9_write_failure_aborts_run_witness :
    runSteps (fun _ => false) (fun _ => true) 0 (4 + 1) =
      Except.error WriteError.previewFailed ∧
    runSteps (fun _ => true) (fun _ => false) 0 (4 + 1) =
      Except.error WriteError.checkpointFailed :=
  ⟨(c9_write_failure_aborts_run (fun _ => false) (fun _ => true) 0 4).1 rfl rfl,
   (c9_write_failure_aborts_run (fun _ => true) (fun _ => false) 0 4).2 rfl rfl rfl rfl⟩

end Toonify
